import Mathlib

/-!
# Verification of the Retro Arcade Adventure core game loop

Shallow embedding of the gameplay core of `src/game.js`: entity data model,
the per-frame `update()` function (player movement, enemy movement for the
three behaviour types, collectible and enemy collision processing, round
progression) and the `returnToStartScreen` reset.

Modelling conventions:
* Positions are rationals (`ℚ`).  The JavaScript code computes with IEEE
  doubles; every constant of the game (speeds `5`, `4`, factors `0.3`, `0.7`,
  `0.8`, sizes `32`, `48`) is modelled by the exact rational it denotes.
* `Phaser.Math.Between`, `Phaser.Math.RND.pick` and the trigonometric chaser
  heading (`Math.cos/sin` of `Phaser.Math.Angle.Between`) are external
  library randomness/trig; they are modelled by an oracle structure `Rand`
  whose fields supply, per call site and per list index, the values those
  calls return.  Theorems that need the documented range of
  `Phaser.Math.Between(lo, hi)` state it as a hypothesis on the oracle.
* `Phaser.Math.Clamp(v, lo, hi)` is `max lo (min v hi)` and
  `Phaser.Math.Distance.Between` is the Euclidean distance; a comparison
  `distance < r` with `r ≥ 0` is modelled squared (`dist2 < r²`), which is
  equivalent and keeps everything rational.
* The Phaser `Group` of enemies/collectibles is modelled as a `List` in
  insertion order.  A collision pass iterates over the members in insertion
  order, per the active-set semantics the repository documents for the
  collision engine (the Phaser library itself is not part of this
  repository's sources).
* A Phaser sprite is created visible; `setVisible(false)` at the call sites
  is modelled by overwriting the `visible` field.
-/

/- Batteries marks the rational-number field operations `@[irreducible]`,
which blocks `decide` on concrete game states; restore the default
reducibility for this file so that concrete ticks evaluate. -/
attribute [local semireducible] Rat.add Rat.sub Rat.mul Rat.inv Rat.ofScientific

namespace Game

/-! ## Constants (`GAME_CONSTANTS` in `src/game.js`) -/

def WIDTH : ℚ := 800
def HEIGHT : ℚ := 600
def PLAYER_SPEED : ℚ := 5
def ENEMY_SPEED : ℚ := 4
def ENEMY_COUNT : ℕ := 5
def COLLECTIBLE_COUNT : ℕ := 10
def PLAYER_SIZE : ℚ := 32
def ENEMY_SIZE : ℚ := 48
def COLLECTIBLE_SIZE : ℚ := 32
def SCORE_PER_COLLECTIBLE : ℤ := 10
def DAMAGE_PER_ENEMY : ℤ := 10
def MAX_HEALTH : ℤ := 100

/-! ## Data model -/

/-- The three enemy behaviour strings `random` / `chaser` / `patrol`. -/
inductive EnemyType where
  | random
  | chaser
  | patrol
deriving DecidableEq, Repr

/-- The player sprite: position and visibility. -/
structure Player where
  x : ℚ
  y : ℚ
  visible : Bool
deriving DecidableEq, Repr

/-- An enemy sprite: position, visibility, behaviour type, and the patrol
bookkeeping fields `moveCounter` / `moveDirection` set by
`GameFactory.createEnemy` (direction encoding from the `switch` in
`update()`: `0` up, `1` down, `2` left, `3` right). -/
structure Enemy where
  x : ℚ
  y : ℚ
  visible : Bool
  etype : EnemyType
  moveCounter : ℕ
  moveDirection : ℕ
deriving DecidableEq, Repr

/-- A collectible sprite: position and visibility. -/
structure Collectible where
  x : ℚ
  y : ℚ
  visible : Bool
deriving DecidableEq, Repr

/-- The mutable session state (`gameState` in `src/game.js`), restricted to
the fields the core loop reads or writes.  The spec's phase is encoded by
the two booleans exactly as in the source: `Playing` is
`introComplete ∧ ¬gameOver`. -/
structure GameState where
  player : Player
  enemies : List Enemy
  collectibles : List Collectible
  score : ℤ
  health : ℤ
  round : ℕ
  enemySpeed : ℚ
  introComplete : Bool
  gameOver : Bool
  escapePressed : Bool
deriving DecidableEq, Repr

/-- The currently-held inputs read by one `update()` call. -/
structure Input where
  left : Bool
  right : Bool
  up : Bool
  down : Bool
  space : Bool
  esc : Bool
deriving DecidableEq, Repr

/-- No key held. -/
def idleInput : Input :=
  { left := false, right := false, up := false, down := false,
    space := false, esc := false }

/-- Oracle for the randomness consumed by one `update()` call.  Indexed
fields are keyed by the position of the entity in its list.
* `randMove i`: the pair of `Phaser.Math.Between(-speed, speed)` draws for
  the `i`-th enemy when it has the `random` behaviour.
* `chaserDir i`: the pair `(cos θ, sin θ)` of the chase heading
  `θ = Phaser.Math.Angle.Between(enemy, player)` for the `i`-th enemy.
* `patrolDir i`: the `Phaser.Math.Between(0, 3)` draw used when the `i`-th
  enemy re-rolls its patrol direction.
* `collectPos i`: the `Phaser.Math.Between` position pair of the `i`-th
  respawned collectible on a round advance.
* `enemyPos`, `enemyType`, `enemyDir`: position, `Phaser.Math.RND.pick`
  behaviour, and initial `Between(0, 3)` direction of the enemy spawned on a
  round advance. -/
structure Rand where
  randMove : ℕ → ℚ × ℚ
  chaserDir : ℕ → ℚ × ℚ
  patrolDir : ℕ → ℕ
  collectPos : ℕ → ℚ × ℚ
  enemyPos : ℚ × ℚ
  enemyType : EnemyType
  enemyDir : ℕ

/-- Oracle for the randomness consumed by one `returnToStartScreen` call. -/
structure ResetRand where
  enemyPos : ℕ → ℚ × ℚ
  enemyDir : ℕ → ℕ
  collectPos : ℕ → ℚ × ℚ

/-! ## Geometry primitives -/

/-- `Math.min` on rationals, written with `if` so that it evaluates by
kernel reduction. -/
def rmin (a b : ℚ) : ℚ := if a ≤ b then a else b

/-- `Math.max` on rationals, written with `if` so that it evaluates by
kernel reduction. -/
def rmax (a b : ℚ) : ℚ := if a ≤ b then b else a

/-- `Phaser.Math.Clamp(v, lo, hi) = Math.max(lo, Math.min(hi, v))`. -/
def clamp (v lo hi : ℚ) : ℚ := rmax lo (rmin v hi)

/-- Squared Euclidean distance between two points. -/
def dist2 (x1 y1 x2 y2 : ℚ) : ℚ := (x1 - x2) ^ 2 + (y1 - y2) ^ 2

/-- `Phaser.Math.Distance.Between(x1,y1,x2,y2) < r` for a radius `r ≥ 0`,
stated on squares so that it stays within `ℚ`. -/
def withinDist (x1 y1 x2 y2 r : ℚ) : Bool :=
  decide (dist2 x1 y1 x2 y2 < r ^ 2)

/-! ## Entity factory (`GameFactory` in `src/game.js`)

A Phaser sprite is visible when created; `createEnemy` additionally sets
`moveCounter = 0` and `moveDirection = Phaser.Math.Between(0, 3)` (the draw
is the `dir` argument here). -/

def createEnemy (x y : ℚ) (t : EnemyType) (dir : ℕ) : Enemy :=
  { x := x, y := y, visible := true, etype := t, moveCounter := 0,
    moveDirection := dir }

def createCollectible (x y : ℚ) : Collectible :=
  { x := x, y := y, visible := true }

/-! ## Movement engine -/

/-- Player movement followed by the bounds clamp (lines 1062–1083 of
`src/game.js`): each held direction adds `±PLAYER_SPEED` to the axis, then
both axes clamp to `[PLAYER_SIZE, dimension - PLAYER_SIZE]`. -/
def movePlayer (inp : Input) (p : Player) : Player :=
  let x1 := if inp.left then p.x - PLAYER_SPEED else p.x
  let x2 := if inp.right then x1 + PLAYER_SPEED else x1
  let y1 := if inp.up then p.y - PLAYER_SPEED else p.y
  let y2 := if inp.down then y1 + PLAYER_SPEED else y1
  { p with
    x := clamp x2 PLAYER_SIZE (WIDTH - PLAYER_SIZE),
    y := clamp y2 PLAYER_SIZE (HEIGHT - PLAYER_SIZE) }

/-- One enemy's movement before the clamp (lines 1104–1131).  `sp` is the
current `gameState.enemySpeed`; `pl` the player after its movement this
tick.  The chaser only moves when the player is visible; a patrol enemy
first increments `moveCounter`, re-rolls its direction and resets the
counter when the counter exceeds `60`, then moves along its (possibly new)
direction; the `switch` moves nothing for a direction outside `0..3`. -/
def moveEnemyRaw (r : Rand) (pl : Player) (sp : ℚ) (i : ℕ) (e : Enemy) : Enemy :=
  let speed := if e.etype = EnemyType.chaser then sp * (3 / 10) else sp
  match e.etype with
  | EnemyType.random =>
      { e with x := e.x + (r.randMove i).1, y := e.y + (r.randMove i).2 }
  | EnemyType.chaser =>
      if pl.visible then
        { e with
          x := e.x + (r.chaserDir i).1 * (speed * (4 / 5)),
          y := e.y + (r.chaserDir i).2 * (speed * (4 / 5)) }
      else e
  | EnemyType.patrol =>
      let c := e.moveCounter + 1
      let dir := if 60 < c then r.patrolDir i else e.moveDirection
      let c2 := if 60 < c then 0 else c
      let e2 := { e with moveCounter := c2, moveDirection := dir }
      if dir = 0 then { e2 with y := e2.y - speed * (7 / 10) }
      else if dir = 1 then { e2 with y := e2.y + speed * (7 / 10) }
      else if dir = 2 then { e2 with x := e2.x - speed * (7 / 10) }
      else if dir = 3 then { e2 with x := e2.x + speed * (7 / 10) }
      else e2

/-- The bounds clamp applied to every enemy after its movement (lines
1134–1135).  The source clamps with `GAME_CONSTANTS.PLAYER_SIZE` on both
axes, not with `ENEMY_SIZE`. -/
def clampEnemy (e : Enemy) : Enemy :=
  { e with
    x := clamp e.x PLAYER_SIZE (WIDTH - PLAYER_SIZE),
    y := clamp e.y PLAYER_SIZE (HEIGHT - PLAYER_SIZE) }

/-- Full per-enemy movement step: behaviour move, then clamp. -/
def moveEnemy (r : Rand) (pl : Player) (sp : ℚ) (i : ℕ) (e : Enemy) : Enemy :=
  clampEnemy (moveEnemyRaw r pl sp i e)

/-- The enemy movement loop, indexed from `i`. -/
def moveEnemiesFrom (r : Rand) (pl : Player) (sp : ℚ) : ℕ → List Enemy → List Enemy
  | _, [] => []
  | i, e :: rest => moveEnemy r pl sp i e :: moveEnemiesFrom r pl sp (i + 1) rest

/-! ## Collision and progression engine -/

/-- Guard of one collectible collision (lines 1143–1145): both sprites
visible and distance strictly below `COLLECTIBLE_SIZE`. -/
def collectHit (pl : Player) (c : Collectible) : Bool :=
  c.visible && pl.visible && withinDist pl.x pl.y c.x c.y COLLECTIBLE_SIZE

/-- The collectible collision loop: returns the collectibles that stay in
the group and the number of collected ones.  A collected collectible is
hidden and removed from the group, which the list model renders as dropping
it from the result. -/
def runCollect (pl : Player) : List Collectible → List Collectible × ℕ
  | [] => ([], 0)
  | c :: rest =>
      let r := runCollect pl rest
      if collectHit pl c then (r.1, r.2 + 1) else (c :: r.1, r.2)

/-- The collectibles of a fresh round-advance batch (lines 1169–1176):
`COLLECTIBLE_COUNT` sprites at oracle positions, not hidden by the caller. -/
def newCollectibles (r : Rand) : List Collectible :=
  (List.range COLLECTIBLE_COUNT).map fun i =>
    createCollectible (r.collectPos i).1 (r.collectPos i).2

/-- The enemy spawned on a round advance (lines 1179–1187), not hidden by
the caller. -/
def newEnemy (r : Rand) : Enemy :=
  createEnemy r.enemyPos.1 r.enemyPos.2 r.enemyType r.enemyDir

/-- Collectible collision and round progression (lines 1140–1193): runs
only when `introComplete && !gameOver`; each collected item adds
`SCORE_PER_COLLECTIBLE`; when the group is emptied by a collection the
round and the enemy speed increment, a fresh batch of collectibles spawns,
and — when the new round is at least `2` — one extra enemy of an
oracle-picked type spawns. -/
def collectPhase (r : Rand) (s : GameState) : GameState :=
  if s.introComplete && !s.gameOver then
    let res := runCollect s.player s.collectibles
    let s1 := { s with
      collectibles := res.1,
      score := s.score + SCORE_PER_COLLECTIBLE * (res.2 : ℤ) }
    if res.1.isEmpty && res.2 != 0 then
      let s2 := { s1 with
        round := s1.round + 1,
        enemySpeed := s1.enemySpeed + 1,
        collectibles := newCollectibles r }
      if 2 ≤ s2.round then { s2 with enemies := s2.enemies ++ [newEnemy r] }
      else s2
    else s1
  else s

/-- Guard of one enemy collision (lines 1199–1201): both sprites visible
and distance strictly below `ENEMY_SIZE`. -/
def enemyHit (pl : Player) (e : Enemy) : Bool :=
  e.visible && pl.visible && withinDist pl.x pl.y e.x e.y ENEMY_SIZE

def hideEnemies (es : List Enemy) : List Enemy :=
  es.map fun e => { e with visible := false }

def hideCollectibles (cs : List Collectible) : List Collectible :=
  cs.map fun c => { c with visible := false }

/-- Processing of the `i`-th enemy in the enemy collision loop (lines
1197–1287): on a hit, subtract `DAMAGE_PER_ENEMY` from health; when the new
health is `≤ 0`, set `gameOver` and hide the player and both groups (the
group-wide `setVisible(false)` hides every member, including the ones the
loop has not reached yet). -/
def damageStep (s : GameState) (i : ℕ) : GameState :=
  match s.enemies[i]? with
  | none => s
  | some e =>
      if enemyHit s.player e then
        let h := s.health - DAMAGE_PER_ENEMY
        let s1 := { s with health := h }
        if h ≤ 0 then
          { s1 with
            gameOver := true,
            player := { s1.player with visible := false },
            enemies := hideEnemies s1.enemies,
            collectibles := hideCollectibles s1.collectibles }
        else s1
      else s

/-- The enemy collision loop (lines 1196–1288): runs only when
`introComplete && !gameOver` held when the loop started, and visits every
member of the enemy group in insertion order even if the game ends midway. -/
def damagePhase (s : GameState) : GameState :=
  if s.introComplete && !s.gameOver then
    (List.range s.enemies.length).foldl damageStep s
  else s

/-! ## The per-frame `update()` -/

/-- One call of `update()` (lines 1042–1289):
1. `ESC` edge detection: a fresh press returns at once (the actual reset is
   a delayed callback outside the tick); otherwise the edge flag updates.
2. When `gameOver` is set the tick returns before any movement.
3. The player moves and clamps.
4. A held spacebar during active gameplay (`introComplete` and, at this
   point necessarily, not game over) returns before enemy movement.
5. Enemies move and clamp, then the collectible pass and the enemy pass
   run. -/
def tick (r : Rand) (inp : Input) (s : GameState) : GameState :=
  if inp.esc && !s.escapePressed then
    { s with escapePressed := true }
  else
    let s0 := { s with escapePressed := if inp.esc then s.escapePressed else false }
    if s0.gameOver then s0
    else
      let s1 := { s0 with player := movePlayer inp s0.player }
      if inp.space && s1.introComplete then s1
      else
        let s2 := { s1 with
          enemies := moveEnemiesFrom r s1.player s1.enemySpeed 0 s1.enemies }
        damagePhase (collectPhase r s2)

/-! ## Session reset (`returnToStartScreen`, lines 936–1002) -/

/-- The reset: zero the score, restore health/round/speed, clear both
phase flags, hide the player (its position is untouched), and replace both
groups by fresh hidden populations — `ENEMY_COUNT` enemies all of the
`random` behaviour and `COLLECTIBLE_COUNT` collectibles. -/
def returnToStartScreen (rr : ResetRand) (s : GameState) : GameState :=
  { player := { s.player with visible := false },
    enemies := (List.range ENEMY_COUNT).map fun i =>
      { createEnemy (rr.enemyPos i).1 (rr.enemyPos i).2 EnemyType.random
          (rr.enemyDir i) with visible := false },
    collectibles := (List.range COLLECTIBLE_COUNT).map fun i =>
      { createCollectible (rr.collectPos i).1 (rr.collectPos i).2 with
          visible := false },
    score := 0,
    health := MAX_HEALTH,
    round := 1,
    enemySpeed := ENEMY_SPEED,
    introComplete := false,
    gameOver := false,
    escapePressed := s.escapePressed }

/-- A concrete oracle used for concrete evaluations. -/
def defaultRand : Rand :=
  { randMove := fun _ => (0, 0),
    chaserDir := fun _ => (1, 0),
    patrolDir := fun _ => 3,
    collectPos := fun _ => (400, 300),
    enemyPos := (400, 300),
    enemyType := EnemyType.random,
    enemyDir := 0 }

/-! ## Basic lemmas -/

lemma clamp_bounds (v lo hi : ℚ) (h : lo ≤ hi) :
    lo ≤ clamp v lo hi ∧ clamp v lo hi ≤ hi := by
  unfold clamp rmax rmin
  split_ifs <;> constructor <;> linarith

lemma movePlayer_visible (inp : Input) (p : Player) :
    (movePlayer inp p).visible = p.visible := rfl

lemma movePlayer_idle (p : Player)
    (hx : PLAYER_SIZE ≤ p.x ∧ p.x ≤ WIDTH - PLAYER_SIZE)
    (hy : PLAYER_SIZE ≤ p.y ∧ p.y ≤ HEIGHT - PLAYER_SIZE) :
    movePlayer idleInput p = p := by
  have hcx : clamp p.x PLAYER_SIZE (WIDTH - PLAYER_SIZE) = p.x := by
    unfold clamp rmax rmin
    split_ifs <;> linarith [hx.1, hx.2]
  have hcy : clamp p.y PLAYER_SIZE (HEIGHT - PLAYER_SIZE) = p.y := by
    unfold clamp rmax rmin
    split_ifs <;> linarith [hy.1, hy.2]
  simp [movePlayer, idleInput, hcx, hcy]

lemma clampEnemy_bounds (e : Enemy) :
    PLAYER_SIZE ≤ (clampEnemy e).x ∧ (clampEnemy e).x ≤ WIDTH - PLAYER_SIZE ∧
    PLAYER_SIZE ≤ (clampEnemy e).y ∧ (clampEnemy e).y ≤ HEIGHT - PLAYER_SIZE := by
  have h1 : PLAYER_SIZE ≤ WIDTH - PLAYER_SIZE := by norm_num [PLAYER_SIZE, WIDTH]
  have h2 : PLAYER_SIZE ≤ HEIGHT - PLAYER_SIZE := by norm_num [PLAYER_SIZE, HEIGHT]
  have hx := clamp_bounds e.x PLAYER_SIZE (WIDTH - PLAYER_SIZE) h1
  have hy := clamp_bounds e.y PLAYER_SIZE (HEIGHT - PLAYER_SIZE) h2
  exact ⟨hx.1, hx.2, hy.1, hy.2⟩

lemma clampEnemy_core (e : Enemy) :
    (clampEnemy e).visible = e.visible ∧ (clampEnemy e).etype = e.etype ∧
    (clampEnemy e).moveCounter = e.moveCounter ∧
    (clampEnemy e).moveDirection = e.moveDirection := ⟨rfl, rfl, rfl, rfl⟩

lemma moveEnemyRaw_type (r : Rand) (pl : Player) (sp : ℚ) (i : ℕ) (e : Enemy) :
    (moveEnemyRaw r pl sp i e).etype = e.etype ∧
    (moveEnemyRaw r pl sp i e).visible = e.visible := by
  rcases e with ⟨x, y, vis, t, mc, md⟩
  cases t <;> simp only [moveEnemyRaw] <;> (try split_ifs) <;> simp

lemma moveEnemy_type (r : Rand) (pl : Player) (sp : ℚ) (i : ℕ) (e : Enemy) :
    (moveEnemy r pl sp i e).etype = e.etype ∧
    (moveEnemy r pl sp i e).visible = e.visible := by
  unfold moveEnemy
  have h := moveEnemyRaw_type r pl sp i e
  have hc := clampEnemy_core (moveEnemyRaw r pl sp i e)
  exact ⟨hc.2.1.trans h.1, hc.1.trans h.2⟩

lemma moveEnemiesFrom_length (r : Rand) (pl : Player) (sp : ℚ) :
    ∀ (i : ℕ) (es : List Enemy), (moveEnemiesFrom r pl sp i es).length = es.length := by
  intro i es
  induction es generalizing i with
  | nil => rfl
  | cons e rest ih => simp [moveEnemiesFrom, ih]

lemma moveEnemiesFrom_etype (r : Rand) (pl : Player) (sp : ℚ) :
    ∀ (i : ℕ) (es : List Enemy),
      (moveEnemiesFrom r pl sp i es).map Enemy.etype = es.map Enemy.etype := by
  intro i es
  induction es generalizing i with
  | nil => rfl
  | cons e rest ih =>
      simp [moveEnemiesFrom, ih, (moveEnemy_type r pl sp i e).1]

lemma moveEnemiesFrom_bounds (r : Rand) (pl : Player) (sp : ℚ) :
    ∀ (i : ℕ) (es : List Enemy), ∀ e ∈ moveEnemiesFrom r pl sp i es,
      PLAYER_SIZE ≤ e.x ∧ e.x ≤ WIDTH - PLAYER_SIZE ∧
      PLAYER_SIZE ≤ e.y ∧ e.y ≤ HEIGHT - PLAYER_SIZE := by
  intro i es
  induction es generalizing i with
  | nil => intro e h; cases h
  | cons a rest ih =>
      intro e h
      rcases List.mem_cons.mp h with h1 | h2
      · subst h1; exact clampEnemy_bounds (moveEnemyRaw r pl sp i a)
      · exact ih (i + 1) e h2

/-! ### `runCollect` lemmas -/

lemma runCollect_kept_not_hit (pl : Player) :
    ∀ (cs : List Collectible), ∀ c ∈ (runCollect pl cs).1, collectHit pl c = false := by
  intro cs
  induction cs with
  | nil => intro c h; cases h
  | cons a rest ih =>
      intro c h
      by_cases ha : collectHit pl a = true
      · simp only [runCollect, ha, if_true] at h
        exact ih c h
      · simp only [runCollect, Bool.not_eq_true] at ha
        simp only [runCollect, ha, Bool.false_eq_true, if_false] at h
        rcases List.mem_cons.mp h with h1 | h2
        · subst h1; exact ha
        · exact ih c h2

lemma runCollect_pos_count (pl : Player) :
    ∀ (cs : List Collectible), ∀ c ∈ cs, collectHit pl c = true →
      1 ≤ (runCollect pl cs).2 := by
  intro cs
  induction cs with
  | nil => intro c h; cases h
  | cons a rest ih =>
      intro c h hc
      by_cases ha : collectHit pl a = true
      · simp [runCollect, ha]
      · simp only [Bool.not_eq_true] at ha
        rcases List.mem_cons.mp h with h1 | h2
        · subst h1; rw [hc] at ha; cases ha
        · simp only [runCollect, ha, Bool.false_eq_true, if_false]
          exact ih c h2 hc

lemma runCollect_all_hit (pl : Player) :
    ∀ (cs : List Collectible), (∀ c ∈ cs, collectHit pl c = true) →
      runCollect pl cs = ([], cs.length) := by
  intro cs
  induction cs with
  | nil => intro _; rfl
  | cons a rest ih =>
      intro h
      have ha := h a (List.mem_cons_self a rest)
      have hr := ih fun c hc => h c (List.mem_cons_of_mem a hc)
      simp [runCollect, ha, hr]

/-! ### Damage-pass preservation lemmas -/

/-- Everything `damageStep` can never change: the score, round, speed,
phase-entry flag, both positions of the player, and the non-visibility
fields and lengths of both entity lists. -/
lemma damageStep_keeps (s : GameState) (i : ℕ) :
    (damageStep s i).score = s.score ∧
    (damageStep s i).round = s.round ∧
    (damageStep s i).enemySpeed = s.enemySpeed ∧
    (damageStep s i).introComplete = s.introComplete ∧
    (damageStep s i).escapePressed = s.escapePressed ∧
    (damageStep s i).player.x = s.player.x ∧
    (damageStep s i).player.y = s.player.y ∧
    (damageStep s i).enemies.map Enemy.etype = s.enemies.map Enemy.etype ∧
    (damageStep s i).enemies.map Enemy.x = s.enemies.map Enemy.x ∧
    (damageStep s i).enemies.map Enemy.y = s.enemies.map Enemy.y ∧
    (damageStep s i).collectibles.length = s.collectibles.length := by
  unfold damageStep
  cases h : s.enemies[i]? with
  | none => simp
  | some e =>
      dsimp only
      split_ifs with h1 h2
      · refine ⟨rfl, rfl, rfl, rfl, rfl, rfl, rfl, ?_, ?_, ?_, ?_⟩ <;>
          simp [hideEnemies, hideCollectibles, List.map_map, Function.comp]
      · exact ⟨rfl, rfl, rfl, rfl, rfl, rfl, rfl, rfl, rfl, rfl, rfl⟩
      · exact ⟨rfl, rfl, rfl, rfl, rfl, rfl, rfl, rfl, rfl, rfl, rfl⟩

lemma damageFold_keeps (L : List ℕ) :
    ∀ (s : GameState),
      (L.foldl damageStep s).score = s.score ∧
      (L.foldl damageStep s).round = s.round ∧
      (L.foldl damageStep s).enemySpeed = s.enemySpeed ∧
      (L.foldl damageStep s).introComplete = s.introComplete ∧
      (L.foldl damageStep s).escapePressed = s.escapePressed ∧
      (L.foldl damageStep s).player.x = s.player.x ∧
      (L.foldl damageStep s).player.y = s.player.y ∧
      (L.foldl damageStep s).enemies.map Enemy.etype = s.enemies.map Enemy.etype ∧
      (L.foldl damageStep s).enemies.map Enemy.x = s.enemies.map Enemy.x ∧
      (L.foldl damageStep s).enemies.map Enemy.y = s.enemies.map Enemy.y ∧
      (L.foldl damageStep s).collectibles.length = s.collectibles.length := by
  induction L with
  | nil => intro s; exact ⟨rfl, rfl, rfl, rfl, rfl, rfl, rfl, rfl, rfl, rfl, rfl⟩
  | cons j rest ih =>
      intro s
      have h1 := damageStep_keeps s j
      have h2 := ih (damageStep s j)
      simp only [List.foldl_cons]
      exact ⟨h2.1.trans h1.1, h2.2.1.trans h1.2.1, h2.2.2.1.trans h1.2.2.1,
        h2.2.2.2.1.trans h1.2.2.2.1, h2.2.2.2.2.1.trans h1.2.2.2.2.1,
        h2.2.2.2.2.2.1.trans h1.2.2.2.2.2.1, h2.2.2.2.2.2.2.1.trans h1.2.2.2.2.2.2.1,
        h2.2.2.2.2.2.2.2.1.trans h1.2.2.2.2.2.2.2.1,
        h2.2.2.2.2.2.2.2.2.1.trans h1.2.2.2.2.2.2.2.2.1,
        h2.2.2.2.2.2.2.2.2.2.1.trans h1.2.2.2.2.2.2.2.2.2.1,
        h2.2.2.2.2.2.2.2.2.2.2.trans h1.2.2.2.2.2.2.2.2.2.2⟩

lemma damagePhase_keeps (s : GameState) :
    (damagePhase s).score = s.score ∧
    (damagePhase s).round = s.round ∧
    (damagePhase s).enemySpeed = s.enemySpeed ∧
    (damagePhase s).enemies.map Enemy.etype = s.enemies.map Enemy.etype ∧
    (damagePhase s).enemies.map Enemy.x = s.enemies.map Enemy.x ∧
    (damagePhase s).enemies.map Enemy.y = s.enemies.map Enemy.y ∧
    (damagePhase s).collectibles.length = s.collectibles.length ∧
    (damagePhase s).player.x = s.player.x ∧
    (damagePhase s).player.y = s.player.y := by
  unfold damagePhase
  split_ifs with h
  · obtain ⟨h1, h2, h3, _, _, h6, h7, h8, h9, h10, h11⟩ :=
      damageFold_keeps (List.range s.enemies.length) s
    exact ⟨h1, h2, h3, h8, h9, h10, h11, h6, h7⟩
  · exact ⟨rfl, rfl, rfl, rfl, rfl, rfl, rfl, rfl, rfl⟩

/-! ### `collectPhase` lemmas -/

lemma collectPhase_score (r : Rand) (s : GameState)
    (hi : s.introComplete = true) (hg : s.gameOver = false) :
    (collectPhase r s).score =
      s.score + SCORE_PER_COLLECTIBLE * ((runCollect s.player s.collectibles).2 : ℤ) := by
  unfold collectPhase
  simp only [hi, hg, Bool.not_false, Bool.and_self, if_true]
  split_ifs <;> rfl

lemma collectPhase_enemies (r : Rand) (s : GameState) :
    (collectPhase r s).enemies = s.enemies ∨
    (collectPhase r s).enemies = s.enemies ++ [newEnemy r] := by
  unfold collectPhase
  dsimp only
  split_ifs <;> simp

/-! ### Game-over inertness lemmas -/

/-- Once the player sprite is hidden, an enemy-collision step can change
nothing: the collision guard requires the player to be visible. -/
lemma damageStep_inert (s : GameState) (i : ℕ) (hp : s.player.visible = false) :
    damageStep s i = s := by
  unfold damageStep
  cases h : s.enemies[i]? with
  | none => rfl
  | some e =>
      dsimp only
      have : enemyHit s.player e = false := by
        simp [enemyHit, hp]
      simp [this]

/-- A tick that starts with `gameOver` set can only update the escape edge
flag: every gameplay field is untouched. -/
lemma tick_gameOver_frozen (r : Rand) (inp : Input) (s : GameState)
    (h : s.gameOver = true) :
    (tick r inp s).player = s.player ∧
    (tick r inp s).enemies = s.enemies ∧
    (tick r inp s).collectibles = s.collectibles ∧
    (tick r inp s).score = s.score ∧
    (tick r inp s).health = s.health ∧
    (tick r inp s).round = s.round ∧
    (tick r inp s).gameOver = true := by
  unfold tick
  split_ifs with h1 <;> simp [h]

/-! ### Patrol timer lemmas -/

/-- The action of one movement step on the pair
`(moveCounter, moveDirection)` of a patrol enemy, as a pure function. -/
def patrolTimer (r : Rand) (i : ℕ) (cd : ℕ × ℕ) : ℕ × ℕ :=
  if 60 < cd.1 + 1 then (0, r.patrolDir i) else (cd.1 + 1, cd.2)

lemma moveEnemy_patrol_timer (r : Rand) (pl : Player) (sp : ℚ) (i : ℕ)
    (e : Enemy) (h : e.etype = EnemyType.patrol) :
    (moveEnemy r pl sp i e).etype = EnemyType.patrol ∧
    ((moveEnemy r pl sp i e).moveCounter, (moveEnemy r pl sp i e).moveDirection)
      = patrolTimer r i (e.moveCounter, e.moveDirection) := by
  rcases e with ⟨x, y, vis, t, mc, md⟩
  simp only [Enemy.etype] at h
  subst h
  simp only [moveEnemy, clampEnemy, moveEnemyRaw, patrolTimer]
  split_ifs <;> simp_all

/-- A freshly spawned patrol enemy: `moveCounter = 0`, facing up. -/
def patrolProbe : Enemy :=
  { x := 400, y := 300, visible := true, etype := EnemyType.patrol,
    moveCounter := 0, moveDirection := 0 }

/-- A visible player far away from the probe (a patrol enemy ignores the
player anyway). -/
def probePlayer : Player := { x := 600, y := 100, visible := true }

/-- The trajectory of the probe under repeated movement steps at the base
enemy speed, with the `defaultRand` oracle (whose re-roll draw is `3`). -/
def patrolTrace : ℕ → Enemy
  | 0 => patrolProbe
  | n + 1 => moveEnemy defaultRand probePlayer ENEMY_SPEED 0 (patrolTrace n)

/-- The pure counter/direction iteration matching `patrolTrace`. -/
def patrolTimerTrace : ℕ → ℕ × ℕ
  | 0 => (0, 0)
  | n + 1 => patrolTimer defaultRand 0 (patrolTimerTrace n)

lemma patrolTrace_timer : ∀ n, (patrolTrace n).etype = EnemyType.patrol ∧
    ((patrolTrace n).moveCounter, (patrolTrace n).moveDirection)
      = patrolTimerTrace n := by
  intro n
  induction n with
  | zero => exact ⟨rfl, rfl⟩
  | succ n ih =>
      have h := moveEnemy_patrol_timer defaultRand probePlayer ENEMY_SPEED 0
        (patrolTrace n) ih.1
      refine ⟨h.1, ?_⟩
      show ((moveEnemy defaultRand probePlayer ENEMY_SPEED 0 (patrolTrace n)).moveCounter,
        (moveEnemy defaultRand probePlayer ENEMY_SPEED 0 (patrolTrace n)).moveDirection)
          = patrolTimer defaultRand 0 (patrolTimerTrace n)
      rw [h.2, ih.2]

/-! ### All-hit damage fold -/

lemma damage_fold_pure (s : GameState)
    (hpv : s.player.visible = true)
    (hall : ∀ e ∈ s.enemies, e.visible = true ∧
      dist2 s.player.x s.player.y e.x e.y < ENEMY_SIZE ^ 2) :
    ∀ k, k ≤ s.enemies.length →
      (∀ m : ℕ, m ≤ k → 0 < s.health - DAMAGE_PER_ENEMY * m) →
      List.foldl damageStep s (List.range k) =
        { s with health := s.health - DAMAGE_PER_ENEMY * k } := by
  intro k
  induction k with
  | zero =>
      intro _ _
      have : s.health - DAMAGE_PER_ENEMY * ((0 : ℕ) : ℤ) = s.health := by push_cast; ring
      rw [List.range_zero, List.foldl_nil, this]
  | succ k ih =>
      intro hk hpos
      have hk' : k ≤ s.enemies.length := Nat.le_of_succ_le hk
      have hpos' : ∀ m : ℕ, m ≤ k → 0 < s.health - DAMAGE_PER_ENEMY * m :=
        fun m hm => hpos m (Nat.le_succ_of_le hm)
      rw [List.range_succ, List.foldl_append, List.foldl_cons, List.foldl_nil,
        ih hk' hpos']
      have hek : k < s.enemies.length := hk
      have hget : s.enemies[k]? = some s.enemies[k] := List.getElem?_eq_getElem hek
      have hmem := List.getElem_mem hek
      have hhit : enemyHit s.player s.enemies[k] = true := by
        simp [enemyHit, withinDist, hpv, (hall _ hmem).1, (hall _ hmem).2]
      have hnot : ¬ (s.health - DAMAGE_PER_ENEMY * k - DAMAGE_PER_ENEMY ≤ 0) := by
        have := hpos (k + 1) (Nat.le_refl _)
        push_cast at this ⊢
        linarith
      have harith : s.health - DAMAGE_PER_ENEMY * k - DAMAGE_PER_ENEMY
          = s.health - DAMAGE_PER_ENEMY * ((k + 1 : ℕ) : ℤ) := by push_cast; ring
      unfold damageStep
      simp only [hget, hhit, if_true, hnot, if_false]
      rw [harith]

lemma hideEnemies_visible (l : List Enemy) :
    ∀ e ∈ hideEnemies l, e.visible = false := by
  intro e he
  obtain ⟨a, _, rfl⟩ := List.mem_map.mp he
  rfl

lemma hideCollectibles_visible (l : List Collectible) :
    ∀ c ∈ hideCollectibles l, c.visible = false := by
  intro c hc
  obtain ⟨a, _, rfl⟩ := List.mem_map.mp hc
  rfl

lemma newCollectibles_length (r : Rand) :
    (newCollectibles r).length = COLLECTIBLE_COUNT := by
  simp [newCollectibles]

lemma collectPhase_player (r : Rand) (s : GameState) :
    (collectPhase r s).player = s.player := by
  unfold collectPhase
  dsimp only
  split_ifs <;> rfl

lemma movePlayer_bounds (inp : Input) (p : Player) :
    PLAYER_SIZE ≤ (movePlayer inp p).x ∧ (movePlayer inp p).x ≤ WIDTH - PLAYER_SIZE ∧
    PLAYER_SIZE ≤ (movePlayer inp p).y ∧ (movePlayer inp p).y ≤ HEIGHT - PLAYER_SIZE := by
  have h1 : PLAYER_SIZE ≤ WIDTH - PLAYER_SIZE := by norm_num [PLAYER_SIZE, WIDTH]
  have h2 : PLAYER_SIZE ≤ HEIGHT - PLAYER_SIZE := by norm_num [PLAYER_SIZE, HEIGHT]
  unfold movePlayer
  refine ⟨(clamp_bounds _ _ _ h1).1, (clamp_bounds _ _ _ h1).2,
    (clamp_bounds _ _ _ h2).1, (clamp_bounds _ _ _ h2).2⟩

/-- Per-axis bounds transport along equal coordinate images. -/
lemma bounds_of_maps {l1 l2 : List Enemy}
    (hx : l2.map Enemy.x = l1.map Enemy.x) (hy : l2.map Enemy.y = l1.map Enemy.y)
    (hb : ∀ e ∈ l1, PLAYER_SIZE ≤ e.x ∧ e.x ≤ WIDTH - PLAYER_SIZE ∧
      PLAYER_SIZE ≤ e.y ∧ e.y ≤ HEIGHT - PLAYER_SIZE) :
    ∀ e ∈ l2, PLAYER_SIZE ≤ e.x ∧ e.x ≤ WIDTH - PLAYER_SIZE ∧
      PLAYER_SIZE ≤ e.y ∧ e.y ≤ HEIGHT - PLAYER_SIZE := by
  intro e he
  have hxm : e.x ∈ l1.map Enemy.x := by
    rw [← hx]; exact List.mem_map.mpr ⟨e, he, rfl⟩
  have hym : e.y ∈ l1.map Enemy.y := by
    rw [← hy]; exact List.mem_map.mpr ⟨e, he, rfl⟩
  obtain ⟨a, ha, hax⟩ := List.mem_map.mp hxm
  obtain ⟨b, hbm, hby⟩ := List.mem_map.mp hym
  have hba := hb a ha
  have hbb := hb b hbm
  rw [hax] at hba
  rw [hby] at hbb
  exact ⟨hba.1, hba.2.1, hbb.2.2.1, hbb.2.2.2⟩

/-- Shape of `collectPhase` on a state whose collectible pass collects
everything. -/
lemma collectPhase_advance (r : Rand) (s : GameState)
    (hi : s.introComplete = true) (hg : s.gameOver = false)
    (hrc : runCollect s.player s.collectibles = ([], s.collectibles.length))
    (hne : s.collectibles.length ≠ 0) :
    collectPhase r s =
      (if 2 ≤ s.round + 1 then
        { s with
          score := s.score + SCORE_PER_COLLECTIBLE * (s.collectibles.length : ℤ),
          round := s.round + 1, enemySpeed := s.enemySpeed + 1,
          collectibles := newCollectibles r,
          enemies := s.enemies ++ [newEnemy r] }
      else
        { s with
          score := s.score + SCORE_PER_COLLECTIBLE * (s.collectibles.length : ℤ),
          round := s.round + 1, enemySpeed := s.enemySpeed + 1,
          collectibles := newCollectibles r }) := by
  unfold collectPhase
  rw [if_pos (by simp [hi, hg])]
  dsimp only
  rw [hrc]
  simp only [List.isEmpty_nil, Bool.true_and, bne_iff_ne, ne_eq, hne,
    not_false_eq_true, if_true]

/-! ### Shape of one full tick -/

/-- The state after the movement half of a full tick: escape edge flag
cleared, player moved, enemies moved. -/
def movedState (r : Rand) (inp : Input) (s : GameState) : GameState :=
  { s with
    escapePressed := false,
    player := movePlayer inp s.player,
    enemies := moveEnemiesFrom r (movePlayer inp s.player) s.enemySpeed 0
      s.enemies }

/-- With no escape edge, no game over and no held spacebar, `update()`
runs all three phases. -/
lemma tick_eq_phases (r : Rand) (inp : Input) (s : GameState)
    (hesc : inp.esc = false) (hgo : s.gameOver = false) (hsp : inp.space = false) :
    tick r inp s = damagePhase (collectPhase r (movedState r inp s)) := by
  simp [tick, movedState, hesc, hgo, hsp]


/-! ## Claims -/

/-! ### Claim C1 -/

/-- Claim C1: during active gameplay, every visible collectible whose
Euclidean distance to the visible player is strictly below
`COLLECTIBLE_SIZE` is removed from the active set by the collectible pass
(`runCollect` keeps only the non-collected members), at least one item is
collected, and the tick's score is the old score plus
`SCORE_PER_COLLECTIBLE` for each collected item.  The distance is taken to
the player position the collision check reads, i.e. after the player's
movement of the same tick. -/
theorem collectible_in_range_collected (r : Rand) (inp : Input) (s : GameState)
    (c : Collectible)
    (hesc : inp.esc = false) (hsp : inp.space = false)
    (hi : s.introComplete = true) (hg : s.gameOver = false)
    (hc : c ∈ s.collectibles) (hcv : c.visible = true)
    (hpv : s.player.visible = true)
    (hnear : dist2 (movePlayer inp s.player).x (movePlayer inp s.player).y c.x c.y
      < COLLECTIBLE_SIZE ^ 2) :
    c ∉ (runCollect (movePlayer inp s.player) s.collectibles).1 ∧
    1 ≤ (runCollect (movePlayer inp s.player) s.collectibles).2 ∧
    (tick r inp s).score = s.score + SCORE_PER_COLLECTIBLE *
      ((runCollect (movePlayer inp s.player) s.collectibles).2 : ℤ) := by
  have hpv2 : (movePlayer inp s.player).visible = true := by
    rw [movePlayer_visible]; exact hpv
  have hhit : collectHit (movePlayer inp s.player) c = true := by
    simp [collectHit, hcv, hpv2, withinDist, hnear]
  refine ⟨?_, ?_, ?_⟩
  · intro hmem
    have hfalse := runCollect_kept_not_hit (movePlayer inp s.player) s.collectibles c hmem
    rw [hhit] at hfalse
    cases hfalse
  · exact runCollect_pos_count _ s.collectibles c hc hhit
  · rw [tick_eq_phases r inp s hesc hg hsp]
    rw [(damagePhase_keeps _).1]
    rw [collectPhase_score r (movedState r inp s) hi hg]
    rfl

/-- Concrete instance of claim C1, the scenario of the spec: player at
`(100,100)`, a collectible at `(105,100)` (distance `5 < 32`), plus a far
second collectible; the close one is collected and the score goes from `0`
to `10`. -/
def c1State : GameState :=
  { player := ⟨100, 100, true⟩, enemies := [],
    collectibles := [⟨105, 100, true⟩, ⟨500, 500, true⟩],
    score := 0, health := 100, round := 1, enemySpeed := 4,
    introComplete := true, gameOver := false, escapePressed := false }

/-- Witness for claim C1 at `c1State`. -/
theorem collectible_in_range_collected_witness :
    ((⟨105, 100, true⟩ : Collectible) ∈ c1State.collectibles ∧
      dist2 (movePlayer idleInput c1State.player).x (movePlayer idleInput c1State.player).y
        105 100 < COLLECTIBLE_SIZE ^ 2) ∧
    ((⟨105, 100, true⟩ : Collectible) ∉
        (runCollect (movePlayer idleInput c1State.player) c1State.collectibles).1 ∧
      1 ≤ (runCollect (movePlayer idleInput c1State.player) c1State.collectibles).2 ∧
      (tick defaultRand idleInput c1State).score = c1State.score + SCORE_PER_COLLECTIBLE *
        ((runCollect (movePlayer idleInput c1State.player) c1State.collectibles).2 : ℤ)) :=
  ⟨⟨by decide, by decide⟩,
    collectible_in_range_collected defaultRand idleInput c1State ⟨105, 100, true⟩
      rfl rfl rfl rfl (by decide) rfl rfl (by decide)⟩

/-! ### Claim C2 -/

/-- Claim C2: a tick whose collectible pass collects every collectible (the
set becomes empty through collection) increments the round by exactly one,
increases the enemy-speed scalar by the fixed step `1`, respawns exactly
one full fresh batch of `COLLECTIBLE_COUNT` collectibles, and — when the
resulting round is at least `2` — appends exactly one enemy whose
behaviour type is the oracle's uniformly-random pick. -/
theorem round_advance_effects (r : Rand) (inp : Input) (s : GameState)
    (hesc : inp.esc = false) (hsp : inp.space = false)
    (hi : s.introComplete = true) (hg : s.gameOver = false)
    (hpv : s.player.visible = true)
    (hne : s.collectibles ≠ [])
    (hall : ∀ c ∈ s.collectibles, c.visible = true ∧
      dist2 (movePlayer inp s.player).x (movePlayer inp s.player).y c.x c.y
        < COLLECTIBLE_SIZE ^ 2) :
    (tick r inp s).round = s.round + 1 ∧
    (tick r inp s).enemySpeed = s.enemySpeed + 1 ∧
    (tick r inp s).collectibles.length = COLLECTIBLE_COUNT ∧
    (2 ≤ s.round + 1 →
      (tick r inp s).enemies.map Enemy.etype
        = s.enemies.map Enemy.etype ++ [r.enemyType]) := by
  have hpv2 : (movePlayer inp s.player).visible = true := by
    rw [movePlayer_visible]; exact hpv
  have hrc : runCollect (movePlayer inp s.player) s.collectibles
      = ([], s.collectibles.length) := by
    refine runCollect_all_hit _ _ fun c hc => ?_
    simp [collectHit, (hall c hc).1, hpv2, withinDist, (hall c hc).2]
  have hlen : s.collectibles.length ≠ 0 := by
    simpa [List.length_eq_zero] using hne
  rw [tick_eq_phases r inp s hesc hg hsp]
  rw [collectPhase_advance r (movedState r inp s) hi hg hrc hlen]
  have hkeep := damagePhase_keeps
  by_cases hr : 2 ≤ s.round + 1
  · rw [if_pos (show 2 ≤ (movedState r inp s).round + 1 from hr)]
    refine ⟨(hkeep _).2.1, (hkeep _).2.2.1, ?_, fun _ => ?_⟩
    · rw [(hkeep _).2.2.2.2.2.2.1]
      exact newCollectibles_length r
    · rw [(hkeep _).2.2.2.1]
      show ((moveEnemiesFrom r (movePlayer inp s.player) s.enemySpeed 0 s.enemies)
        ++ [newEnemy r]).map Enemy.etype = s.enemies.map Enemy.etype ++ [r.enemyType]
      rw [List.map_append, moveEnemiesFrom_etype]
      rfl
  · rw [if_neg (show ¬ 2 ≤ (movedState r inp s).round + 1 from hr)]
    refine ⟨(hkeep _).2.1, (hkeep _).2.2.1, ?_, fun hr2 => absurd hr2 hr⟩
    rw [(hkeep _).2.2.2.2.2.2.1]
    exact newCollectibles_length r

/-- Concrete instance of claim C2: round `1`, a single remaining visible
collectible next to the player; collecting it advances to round `2`, bumps
the speed from `4` to `5`, spawns `10` fresh collectibles and one extra
enemy of the oracle-picked type. -/
def c2State : GameState :=
  { player := ⟨100, 100, true⟩, enemies := [⟨700, 500, true, EnemyType.random, 0, 0⟩],
    collectibles := [⟨105, 100, true⟩],
    score := 90, health := 100, round := 1, enemySpeed := 4,
    introComplete := true, gameOver := false, escapePressed := false }

/-- Witness for claim C2 at `c2State`. -/
theorem round_advance_effects_witness :
    (c2State.collectibles ≠ [] ∧
      ∀ c ∈ c2State.collectibles, c.visible = true ∧
        dist2 (movePlayer idleInput c2State.player).x
          (movePlayer idleInput c2State.player).y c.x c.y < COLLECTIBLE_SIZE ^ 2) ∧
    ((tick defaultRand idleInput c2State).round = c2State.round + 1 ∧
      (tick defaultRand idleInput c2State).enemySpeed = c2State.enemySpeed + 1 ∧
      (tick defaultRand idleInput c2State).collectibles.length = COLLECTIBLE_COUNT ∧
      (2 ≤ c2State.round + 1 →
        (tick defaultRand idleInput c2State).enemies.map Enemy.etype
          = c2State.enemies.map Enemy.etype ++ [defaultRand.enemyType])) :=
  ⟨⟨by decide, by decide⟩,
    round_advance_effects defaultRand idleInput c2State
      rfl rfl rfl rfl rfl (by decide) (by decide)⟩

/-! ### Claim C3 -/

/-- Claim C3: when an enemy-collision step flips the session to game over
(health dropped to `≤ 0`), that transition hides the player and both
entity groups, any later enemy-collision step of the same tick leaves the
state completely unchanged (so the transition can fire only once), and
every subsequent tick leaves score, health and round unchanged and the
session in game over, until an explicit reset. -/
theorem game_over_exactly_once (r : Rand) (inp : Input) (s : GameState) (i j : ℕ)
    (h0 : s.gameOver = false)
    (ht : (damageStep s i).gameOver = true) :
    (damageStep s i).player.visible = false ∧
    (∀ e ∈ (damageStep s i).enemies, e.visible = false) ∧
    (∀ c ∈ (damageStep s i).collectibles, c.visible = false) ∧
    damageStep (damageStep s i) j = damageStep s i ∧
    (tick r inp (damageStep s i)).score = (damageStep s i).score ∧
    (tick r inp (damageStep s i)).health = (damageStep s i).health ∧
    (tick r inp (damageStep s i)).round = (damageStep s i).round ∧
    (tick r inp (damageStep s i)).gameOver = true := by
  have hshape : (damageStep s i).player.visible = false ∧
      (∀ e ∈ (damageStep s i).enemies, e.visible = false) ∧
      (∀ c ∈ (damageStep s i).collectibles, c.visible = false) := by
    unfold damageStep at ht ⊢
    cases hg : s.enemies[i]? with
    | none =>
        rw [hg] at ht
        dsimp only at ht
        rw [h0] at ht
        cases ht
    | some e =>
        rw [hg] at ht
        dsimp only at ht ⊢
        split_ifs at ht ⊢ with h1 h2
        · exact ⟨rfl, hideEnemies_visible _, hideCollectibles_visible _⟩
        · rw [h0] at ht; cases ht
        · rw [h0] at ht; cases ht
  have hfrozen := tick_gameOver_frozen r inp (damageStep s i) ht
  exact ⟨hshape.1, hshape.2.1, hshape.2.2,
    damageStep_inert _ j hshape.1,
    hfrozen.2.2.2.1, hfrozen.2.2.2.2.1, hfrozen.2.2.2.2.2.1, hfrozen.2.2.2.2.2.2⟩

/-- Concrete instance of claim C3: health `5`, one overlapping enemy; the
hit drops health to `-5`, fires the game-over transition, and everything
freezes. -/
def c3State : GameState :=
  { player := ⟨100, 100, true⟩,
    enemies := [⟨100, 100, true, EnemyType.random, 0, 0⟩,
      ⟨110, 100, true, EnemyType.random, 0, 0⟩],
    collectibles := [⟨400, 300, true⟩],
    score := 40, health := 5, round := 1, enemySpeed := 4,
    introComplete := true, gameOver := false, escapePressed := false }

/-- Witness for claim C3 at `c3State`: the first enemy triggers the
transition; the second overlapping enemy (index `1`) then changes nothing. -/
theorem game_over_exactly_once_witness :
    (c3State.gameOver = false ∧ (damageStep c3State 0).gameOver = true) ∧
    ((damageStep c3State 0).player.visible = false ∧
      (∀ e ∈ (damageStep c3State 0).enemies, e.visible = false) ∧
      (∀ c ∈ (damageStep c3State 0).collectibles, c.visible = false) ∧
      damageStep (damageStep c3State 0) 1 = damageStep c3State 0 ∧
      (tick defaultRand idleInput (damageStep c3State 0)).score
        = (damageStep c3State 0).score ∧
      (tick defaultRand idleInput (damageStep c3State 0)).health
        = (damageStep c3State 0).health ∧
      (tick defaultRand idleInput (damageStep c3State 0)).round
        = (damageStep c3State 0).round ∧
      (tick defaultRand idleInput (damageStep c3State 0)).gameOver = true) :=
  ⟨⟨rfl, by decide⟩,
    game_over_exactly_once defaultRand idleInput c3State 0 1 rfl (by decide)⟩

/-! ### Claim C4 -/

/-- A playing state with a visible patrol enemy at `x = 40` facing left;
the player stands far away so no collision fires. -/
def c4State : GameState :=
  { player := ⟨600, 300, true⟩,
    enemies := [⟨40, 300, true, EnemyType.patrol, 0, 2⟩],
    collectibles := [],
    score := 0, health := 100, round := 1, enemySpeed := 4,
    introComplete := true, gameOver := false, escapePressed := false }

/-- Counterexample to claim C4 as stated: after one tick the patrol enemy
sits at `x = 40 - 4 * 0.7 = 37.2`, inside the playfield clamp
`[PLAYER_SIZE, WIDTH - PLAYER_SIZE] = [32, 768]` the source actually
applies to enemies, but below the enemy's own size constant
`ENEMY_SIZE = 48` — so the claimed per-entity bound
`[ENEMY_SIZE, WIDTH - ENEMY_SIZE]` fails. -/
theorem enemy_clamp_not_own_size :
    (tick defaultRand idleInput c4State).enemies.map Enemy.x = [186 / 5] ∧
    ¬ (ENEMY_SIZE ≤ (186 / 5 : ℚ)) := by
  constructor
  · decide
  · decide

/-- Claim C4 (amended): after every tick that runs the movement phase, the
player's and every enemy's position lies within
`[PLAYER_SIZE, dimension - PLAYER_SIZE]` on both axes — the enemy clamp
uses the shared `PLAYER_SIZE` constant (32), not the enemy's own
`ENEMY_SIZE` (48).  An enemy spawned by a round advance of the same tick
lies in this range too, because its spawn range
`[ENEMY_SIZE, dimension - ENEMY_SIZE]` (the stated oracle hypothesis, from
`Phaser.Math.Between`'s contract) is contained in it. -/
theorem entities_within_shared_bounds (r : Rand) (inp : Input) (s : GameState)
    (hesc : inp.esc = false) (hsp : inp.space = false) (hg : s.gameOver = false)
    (hex : ENEMY_SIZE ≤ r.enemyPos.1 ∧ r.enemyPos.1 ≤ WIDTH - ENEMY_SIZE)
    (hey : ENEMY_SIZE ≤ r.enemyPos.2 ∧ r.enemyPos.2 ≤ HEIGHT - ENEMY_SIZE) :
    (PLAYER_SIZE ≤ (tick r inp s).player.x ∧
      (tick r inp s).player.x ≤ WIDTH - PLAYER_SIZE ∧
      PLAYER_SIZE ≤ (tick r inp s).player.y ∧
      (tick r inp s).player.y ≤ HEIGHT - PLAYER_SIZE) ∧
    (∀ e ∈ (tick r inp s).enemies,
      PLAYER_SIZE ≤ e.x ∧ e.x ≤ WIDTH - PLAYER_SIZE ∧
      PLAYER_SIZE ≤ e.y ∧ e.y ≤ HEIGHT - PLAYER_SIZE) := by
  rw [tick_eq_phases r inp s hesc hg hsp]
  have hkeep := damagePhase_keeps (collectPhase r (movedState r inp s))
  constructor
  · have hpx := hkeep.2.2.2.2.2.2.2.1
    have hpy := hkeep.2.2.2.2.2.2.2.2
    rw [hpx, hpy, collectPhase_player]
    show PLAYER_SIZE ≤ (movePlayer inp s.player).x ∧ _
    have hb := movePlayer_bounds inp s.player
    exact ⟨hb.1, hb.2.1, hb.2.2.1, hb.2.2.2⟩
  · have hmoved : ∀ e ∈ (collectPhase r (movedState r inp s)).enemies,
        PLAYER_SIZE ≤ e.x ∧ e.x ≤ WIDTH - PLAYER_SIZE ∧
        PLAYER_SIZE ≤ e.y ∧ e.y ≤ HEIGHT - PLAYER_SIZE := by
      have hfrom := moveEnemiesFrom_bounds r (movePlayer inp s.player) s.enemySpeed 0
        s.enemies
      have hnew : PLAYER_SIZE ≤ (newEnemy r).x ∧ (newEnemy r).x ≤ WIDTH - PLAYER_SIZE ∧
          PLAYER_SIZE ≤ (newEnemy r).y ∧ (newEnemy r).y ≤ HEIGHT - PLAYER_SIZE := by
        have c1 : PLAYER_SIZE ≤ ENEMY_SIZE := by norm_num [PLAYER_SIZE, ENEMY_SIZE]
        have c2 : WIDTH - ENEMY_SIZE ≤ WIDTH - PLAYER_SIZE := by
          norm_num [PLAYER_SIZE, ENEMY_SIZE, WIDTH]
        have c3 : HEIGHT - ENEMY_SIZE ≤ HEIGHT - PLAYER_SIZE := by
          norm_num [PLAYER_SIZE, ENEMY_SIZE, HEIGHT]
        exact ⟨le_trans c1 hex.1, le_trans hex.2 c2, le_trans c1 hey.1,
          le_trans hey.2 c3⟩
      rcases collectPhase_enemies r (movedState r inp s) with hce | hce <;> rw [hce]
      · exact hfrom
      · intro e he
        rcases List.mem_append.mp he with h1 | h2
        · exact hfrom e h1
        · rcases List.mem_singleton.mp h2 with rfl
          exact hnew
    exact bounds_of_maps hkeep.2.2.2.2.1 hkeep.2.2.2.2.2.1 hmoved

/-- Witness for the amended claim C4 at `c4State`: all hypotheses hold for
`defaultRand` (whose round-advance spawn position is `(400, 300)`), and the
bounds hold after the tick. -/
theorem entities_within_shared_bounds_witness :
    (ENEMY_SIZE ≤ defaultRand.enemyPos.1 ∧
      defaultRand.enemyPos.1 ≤ WIDTH - ENEMY_SIZE) ∧
    ((PLAYER_SIZE ≤ (tick defaultRand idleInput c4State).player.x ∧
      (tick defaultRand idleInput c4State).player.x ≤ WIDTH - PLAYER_SIZE ∧
      PLAYER_SIZE ≤ (tick defaultRand idleInput c4State).player.y ∧
      (tick defaultRand idleInput c4State).player.y ≤ HEIGHT - PLAYER_SIZE) ∧
    (∀ e ∈ (tick defaultRand idleInput c4State).enemies,
      PLAYER_SIZE ≤ e.x ∧ e.x ≤ WIDTH - PLAYER_SIZE ∧
      PLAYER_SIZE ≤ e.y ∧ e.y ≤ HEIGHT - PLAYER_SIZE)) :=
  ⟨⟨by decide, by decide⟩,
    entities_within_shared_bounds defaultRand idleInput c4State rfl rfl rfl
      ⟨by decide, by decide⟩ ⟨by decide, by decide⟩⟩

/-! ### Claim C5 -/

/-- Claim C5 (divergence evidence): a freshly spawned patrol enemy keeps
its facing for the first `60` movement ticks — at tick `60` the counter
has only reached `60`, which does not exceed the threshold — and re-rolls
it on the `61`st tick, where the counter resets; so the re-roll period is
`61` ticks, not the `60` of the claim and of the source's own comment.
Each tick moves the enemy by `speed * 0.7` along the facing axis (last
clause, one tick of the probe facing up). -/
theorem patrol_direction_period :
    ((List.range 61).map fun n => (patrolTrace n).moveDirection)
      = List.replicate 61 0 ∧
    (patrolTrace 60).moveCounter = 60 ∧
    (patrolTrace 61).moveDirection = 3 ∧
    (patrolTrace 61).moveCounter = 0 ∧
    (patrolTrace 1).y = patrolProbe.y - ENEMY_SPEED * (7 / 10) := by
  have hdir : ∀ n, (patrolTrace n).moveDirection = (patrolTimerTrace n).2 :=
    fun n => congrArg Prod.snd (patrolTrace_timer n).2
  have hcnt : ∀ n, (patrolTrace n).moveCounter = (patrolTimerTrace n).1 :=
    fun n => congrArg Prod.fst (patrolTrace_timer n).2
  refine ⟨?_, ?_, ?_, ?_, ?_⟩
  · rw [List.map_congr_left fun n _ => hdir n]
    decide
  · rw [hcnt]; decide
  · rw [hdir]; decide
  · rw [hcnt]; decide
  · decide

/-! ### Claim C6 -/

/-- Claim C6: in one enemy-collision pass of active gameplay in which every
enemy is visible and overlaps the visible player, each enemy applies
`DAMAGE_PER_ENEMY` independently — provided health stays positive until the
last one is processed (otherwise the game-over transition hides the
remaining enemies), the resulting health is the old health minus the damage
times the number of enemies, with no per-tick debounce. -/
theorem overlapping_enemies_stack_damage (s : GameState)
    (hi : s.introComplete = true) (hg : s.gameOver = false)
    (hpv : s.player.visible = true)
    (hall : ∀ e ∈ s.enemies, e.visible = true ∧
      dist2 s.player.x s.player.y e.x e.y < ENEMY_SIZE ^ 2)
    (hh : DAMAGE_PER_ENEMY * ((s.enemies.length : ℤ) - 1) < s.health) :
    (damagePhase s).health = s.health - DAMAGE_PER_ENEMY * (s.enemies.length : ℤ) := by
  unfold damagePhase
  rw [if_pos (by simp [hi, hg])]
  cases hn : s.enemies.length with
  | zero =>
      rw [List.range_zero, List.foldl_nil]
      push_cast
      ring
  | succ m =>
      have hpos : ∀ t : ℕ, t ≤ m → 0 < s.health - DAMAGE_PER_ENEMY * t := by
        intro t htm
        rw [hn] at hh
        have hcast : (t : ℤ) ≤ (m : ℤ) := by exact_mod_cast htm
        simp only [DAMAGE_PER_ENEMY] at hh ⊢
        push_cast at hh ⊢
        linarith
      have hfold := damage_fold_pure s hpv hall m (by rw [hn]; exact Nat.le_succ m) hpos
      rw [List.range_succ, List.foldl_append, List.foldl_cons, List.foldl_nil,
        hfold]
      have hm : m < s.enemies.length := by rw [hn]; exact Nat.lt_succ_self m
      have hget : s.enemies[m]? = some s.enemies[m] := List.getElem?_eq_getElem hm
      have hmem := List.getElem_mem hm
      have hhit : enemyHit s.player s.enemies[m] = true := by
        simp [enemyHit, withinDist, hpv, (hall _ hmem).1, (hall _ hmem).2]
      unfold damageStep
      dsimp only
      rw [hget]
      dsimp only
      rw [if_pos hhit]
      have harith : s.health - DAMAGE_PER_ENEMY * (m : ℤ) - DAMAGE_PER_ENEMY
          = s.health - DAMAGE_PER_ENEMY * ((Nat.succ m : ℕ) : ℤ) := by
        push_cast
        ring
      split_ifs <;> exact harith

/-- A playing state with two enemies overlapping the player and plenty of
health. -/
def c6State : GameState :=
  { player := ⟨100, 100, true⟩,
    enemies := [⟨100, 100, true, EnemyType.random, 0, 0⟩,
      ⟨110, 100, true, EnemyType.chaser, 0, 0⟩],
    collectibles := [],
    score := 0, health := 100, round := 1, enemySpeed := 4,
    introComplete := true, gameOver := false, escapePressed := false }

/-- Witness for claim C6 at `c6State`: two overlapping enemies in the same
pass take health from `100` to `80` — `10` each, no debounce. -/
theorem overlapping_enemies_stack_damage_witness :
    ((∀ e ∈ c6State.enemies, e.visible = true ∧
        dist2 c6State.player.x c6State.player.y e.x e.y < ENEMY_SIZE ^ 2) ∧
      DAMAGE_PER_ENEMY * ((c6State.enemies.length : ℤ) - 1) < c6State.health) ∧
    (damagePhase c6State).health
      = c6State.health - DAMAGE_PER_ENEMY * (c6State.enemies.length : ℤ) :=
  ⟨⟨by decide, by decide⟩,
    overlapping_enemies_stack_damage c6State rfl rfl rfl (by decide) (by decide)⟩

/-! ### Claim C7 -/

/-- A tick during the intro (`introComplete = false`, not game over) with a
single invisible patrol enemy. -/
def c7State : GameState :=
  { player := ⟨400, 300, false⟩,
    enemies := [⟨400, 300, false, EnemyType.patrol, 0, 0⟩],
    collectibles := [],
    score := 0, health := 100, round := 1, enemySpeed := 4,
    introComplete := false, gameOver := false, escapePressed := false }

/-- Counterexample to claim C7 as stated: on a tick whose phase is not
Playing (the intro is not complete) the invisible patrol enemy still moves,
from `y = 300` to `y = 300 - 4 * 0.7 = 297.2` — enemy movement in the
source is gated neither on `introComplete` nor on the enemy's visibility. -/
theorem invisible_enemy_moves_during_intro :
    c7State.introComplete = false ∧ c7State.gameOver = false ∧
    (∀ e ∈ c7State.enemies, e.visible = false) ∧
    c7State.enemies.map Enemy.y = [300] ∧
    (tick defaultRand idleInput c7State).enemies.map Enemy.y = [1486 / 5] ∧
    (1486 / 5 : ℚ) ≠ 300 := by
  refine ⟨rfl, rfl, by decide, by decide, by decide, by decide⟩

/-- Claim C7 (amended): movement is inert on game-over ticks — for every
tick in which `gameOver` is set, the player, every enemy and every
collectible keep their exact state (in particular their positions), and
score, health and round are unchanged.  Outside game over, movement is not
gated on the phase or on visibility (see the counterexample). -/
theorem tick_inert_when_game_over (r : Rand) (inp : Input) (s : GameState)
    (h : s.gameOver = true) :
    (tick r inp s).player = s.player ∧
    (tick r inp s).enemies = s.enemies ∧
    (tick r inp s).collectibles = s.collectibles ∧
    (tick r inp s).score = s.score ∧
    (tick r inp s).health = s.health ∧
    (tick r inp s).round = s.round := by
  have hf := tick_gameOver_frozen r inp s h
  exact ⟨hf.1, hf.2.1, hf.2.2.1, hf.2.2.2.1, hf.2.2.2.2.1, hf.2.2.2.2.2.1⟩

/-- A game-over state with entities left in place. -/
def c7GameOverState : GameState :=
  { player := ⟨100, 100, false⟩,
    enemies := [⟨200, 200, false, EnemyType.random, 0, 0⟩],
    collectibles := [⟨400, 300, false⟩],
    score := 120, health := -5, round := 3, enemySpeed := 6,
    introComplete := true, gameOver := true, escapePressed := false }

/-- Witness for the amended claim C7 at `c7GameOverState` with held
direction keys: nothing changes on a game-over tick. -/
theorem tick_inert_when_game_over_witness :
    c7GameOverState.gameOver = true ∧
    ((tick defaultRand ⟨true, false, true, false, false, false⟩ c7GameOverState).player
        = c7GameOverState.player ∧
      (tick defaultRand ⟨true, false, true, false, false, false⟩ c7GameOverState).enemies
        = c7GameOverState.enemies ∧
      (tick defaultRand ⟨true, false, true, false, false, false⟩ c7GameOverState).collectibles
        = c7GameOverState.collectibles ∧
      (tick defaultRand ⟨true, false, true, false, false, false⟩ c7GameOverState).score
        = c7GameOverState.score ∧
      (tick defaultRand ⟨true, false, true, false, false, false⟩ c7GameOverState).health
        = c7GameOverState.health ∧
      (tick defaultRand ⟨true, false, true, false, false, false⟩ c7GameOverState).round
        = c7GameOverState.round) :=
  ⟨rfl, tick_inert_when_game_over defaultRand ⟨true, false, true, false, false, false⟩
    c7GameOverState rfl⟩

/-! ### Claim C8 -/

/-- Claim C8: `returnToStartScreen` restores the canonical initial session
from any state: score `0`, health `MAX_HEALTH`, round `1`, speed
`ENEMY_SPEED`, both phase flags cleared (not Playing), hidden player,
exactly `ENEMY_COUNT` enemies all of the `random` behaviour and all hidden,
exactly `COLLECTIBLE_COUNT` collectibles all hidden; and resetting twice
yields the same state as resetting once (idempotence — exactly, for the
same spawn draws, hence a fortiori up to random spawn positions). -/
theorem reset_canonical (rr rr2 : ResetRand) (s : GameState) :
    (returnToStartScreen rr s).score = 0 ∧
    (returnToStartScreen rr s).health = MAX_HEALTH ∧
    (returnToStartScreen rr s).round = 1 ∧
    (returnToStartScreen rr s).enemySpeed = ENEMY_SPEED ∧
    (returnToStartScreen rr s).introComplete = false ∧
    (returnToStartScreen rr s).gameOver = false ∧
    (returnToStartScreen rr s).player.visible = false ∧
    (returnToStartScreen rr s).enemies.length = ENEMY_COUNT ∧
    (∀ e ∈ (returnToStartScreen rr s).enemies,
      e.visible = false ∧ e.etype = EnemyType.random) ∧
    (returnToStartScreen rr s).collectibles.length = COLLECTIBLE_COUNT ∧
    (∀ c ∈ (returnToStartScreen rr s).collectibles, c.visible = false) ∧
    returnToStartScreen rr (returnToStartScreen rr2 s) = returnToStartScreen rr s := by
  refine ⟨rfl, rfl, rfl, rfl, rfl, rfl, rfl, ?_, ?_, ?_, ?_, rfl⟩
  · simp [returnToStartScreen]
  · intro e he
    obtain ⟨i, _, rfl⟩ := List.mem_map.mp he
    exact ⟨rfl, rfl⟩
  · simp [returnToStartScreen]
  · intro c hc
    obtain ⟨i, _, rfl⟩ := List.mem_map.mp hc
    rfl

/-! ### Claim C9 -/

/-- A playing state one collection away from a round advance. -/
def c9State : GameState :=
  { player := ⟨100, 100, true⟩, enemies := [],
    collectibles := [⟨105, 100, true⟩],
    score := 90, health := 100, round := 1, enemySpeed := 4,
    introComplete := true, gameOver := false, escapePressed := false }

/-- Counterexample to claim C9 as stated: the entities spawned by the
round advance inside a tick — the full respawned collectible batch and the
additional enemy — are visible immediately after the tick; the source
never calls `setVisible(false)` on them. -/
theorem round_advance_spawns_visible :
    (tick defaultRand idleInput c9State).collectibles.map Collectible.visible
      = List.replicate 10 true ∧
    (tick defaultRand idleInput c9State).enemies.map Enemy.visible = [true] := by
  constructor
  · decide
  · decide

/-- Claim C9 (amended): the factory itself creates entities visible (the
Phaser sprite default); the initial-population and reset call sites then
hide each created entity at once — so every entity of a reset state is
invisible — while the round-advance call sites do not, leaving the
respawned batch and the extra enemy visible at creation. -/
theorem spawn_visibility (x y : ℚ) (t : EnemyType) (d : ℕ)
    (rr : ResetRand) (r : Rand) (s : GameState) :
    (createEnemy x y t d).visible = true ∧
    (createCollectible x y).visible = true ∧
    (∀ e ∈ (returnToStartScreen rr s).enemies, e.visible = false) ∧
    (∀ c ∈ (returnToStartScreen rr s).collectibles, c.visible = false) ∧
    (∀ c ∈ newCollectibles r, c.visible = true) ∧
    (newEnemy r).visible = true := by
  refine ⟨rfl, rfl, ?_, ?_, ?_, rfl⟩
  · intro e he
    obtain ⟨i, _, rfl⟩ := List.mem_map.mp he
    rfl
  · intro c hc
    obtain ⟨i, _, rfl⟩ := List.mem_map.mp hc
    rfl
  · intro c hc
    obtain ⟨i, _, rfl⟩ := List.mem_map.mp hc
    rfl

/-! ### Claim C10 -/

/-- Claim C10: a held spacebar during active gameplay makes the tick
return right after the player's movement and clamp: the player still moves
(the result is exactly `movePlayer`), while enemies, collectibles, score,
health, round and the speed scalar are all untouched. -/
theorem space_skips_rest_of_tick (r : Rand) (inp : Input) (s : GameState)
    (hesc : inp.esc = false) (hsp : inp.space = true)
    (hi : s.introComplete = true) (hg : s.gameOver = false) :
    (tick r inp s).player = movePlayer inp s.player ∧
    (tick r inp s).enemies = s.enemies ∧
    (tick r inp s).collectibles = s.collectibles ∧
    (tick r inp s).score = s.score ∧
    (tick r inp s).health = s.health ∧
    (tick r inp s).round = s.round ∧
    (tick r inp s).enemySpeed = s.enemySpeed := by
  unfold tick
  simp [hesc, hsp, hg, hi]

/-- A mid-game state used for the spacebar witness. -/
def c10State : GameState :=
  { player := ⟨100, 100, true⟩,
    enemies := [⟨100, 100, true, EnemyType.random, 0, 0⟩],
    collectibles := [⟨105, 100, true⟩],
    score := 0, health := 100, round := 1, enemySpeed := 4,
    introComplete := true, gameOver := false, escapePressed := false }

/-- Witness for claim C10 at `c10State` with spacebar and the right arrow
held: the player moves to `x = 105` but the overlapping enemy deals no
damage, the in-range collectible is not collected, and nothing else
changes. -/
theorem space_skips_rest_of_tick_witness :
    ((⟨false, true, false, false, true, false⟩ : Input).space = true ∧
      c10State.introComplete = true) ∧
    ((tick defaultRand ⟨false, true, false, false, true, false⟩ c10State).player
        = movePlayer ⟨false, true, false, false, true, false⟩ c10State.player ∧
      (tick defaultRand ⟨false, true, false, false, true, false⟩ c10State).enemies
        = c10State.enemies ∧
      (tick defaultRand ⟨false, true, false, false, true, false⟩ c10State).collectibles
        = c10State.collectibles ∧
      (tick defaultRand ⟨false, true, false, false, true, false⟩ c10State).score
        = c10State.score ∧
      (tick defaultRand ⟨false, true, false, false, true, false⟩ c10State).health
        = c10State.health ∧
      (tick defaultRand ⟨false, true, false, false, true, false⟩ c10State).round
        = c10State.round ∧
      (tick defaultRand ⟨false, true, false, false, true, false⟩ c10State).enemySpeed
        = c10State.enemySpeed) :=
  ⟨⟨rfl, rfl⟩,
    space_skips_rest_of_tick defaultRand ⟨false, true, false, false, true, false⟩
      c10State rfl rfl rfl rfl⟩

end Game
